import Mathlib

/- Verification development for the argocd-slack-bot repository: a shallow
embedding of the command/confirmation workflow in `main.py`, the ArgoCD client
in `argocd_api.py`, and the authorization logic in `config.py`. External
HTTP and messaging calls are modelled as an explicit effect trace, with their
results supplied by oracles. -/

namespace ArgoBot

/-- Python-style dynamic values, as they occur in parsed JSON payloads. -/
inductive PyVal where
  | str (s : String)
  | int (n : Int)
  | bool (b : Bool)
  | none
  | list (items : List PyVal)
  | dict (entries : List (String × PyVal))

/-- Python exception classes relevant to the embedded code. -/
inductive PyExc where
  | keyError
  | typeError
  | attributeError
  | indexError
  deriving DecidableEq

/-- Truthiness of a Python value, `bool(v)`. -/
def pyTruthy : PyVal → Bool
  | .str s => !s.data.isEmpty
  | .int n => n != 0
  | .bool b => b
  | .none => false
  | .list items => !items.isEmpty
  | .dict entries => !entries.isEmpty

/-- Python `v == key` for a string literal `key`; cross-type equality is `False`. -/
def pyEqStr (v : PyVal) (key : String) : Bool :=
  match v with
  | .str s => s == key
  | _ => false

/-- Python `v == n` for an integer literal; `True`/`False` compare as `1`/`0`. -/
def pyEqInt (v : PyVal) (n : Int) : Bool :=
  match v with
  | .int m => m == n
  | .bool b => (if b then (1 : Int) else 0) == n
  | _ => false

/-- Python `v.get(key, default)`; raises `AttributeError` when `v` is not a dict. -/
def pyGet (v : PyVal) (key : String) (default : PyVal) : Except PyExc PyVal :=
  match v with
  | .dict entries =>
      match entries.find? (fun kv => kv.1 == key) with
      | some kv => .ok kv.2
      | Option.none => .ok default
  | _ => .error .attributeError

/-- Substring test on character lists, modelling Python `needle in haystack`. -/
def strContainsList (needle : List Char) : List Char → Bool
  | [] => needle.isEmpty
  | c :: rest => needle.isPrefixOf (c :: rest) || strContainsList needle rest

/-- Python `key in v`: key membership for dicts, substring test for strings,
element membership for lists; `TypeError` otherwise. -/
def pyContains (v : PyVal) (key : String) : Except PyExc Bool :=
  match v with
  | .dict entries => .ok (entries.any (fun kv => kv.1 == key))
  | .str s => .ok (strContainsList key.data s.data)
  | .list items => .ok (items.any (fun x => pyEqStr x key))
  | _ => .error .typeError

/-- Python iteration `for x in v`: lists yield items, strings yield one-character
strings, dicts yield their keys; `TypeError` otherwise. -/
def pyIter : PyVal → Except PyExc (List PyVal)
  | .list items => .ok items
  | .str s => .ok (s.data.map (fun c => PyVal.str (String.mk [c])))
  | .dict entries => .ok (entries.map (fun kv => PyVal.str kv.1))
  | _ => .error .typeError

/-- Python `v[i]` for a natural-number index. -/
def pyIndex (v : PyVal) (i : Nat) : Except PyExc PyVal :=
  match v with
  | .list items =>
      match items.get? i with
      | some x => .ok x
      | Option.none => .error .indexError
  | .str s =>
      match s.data.get? i with
      | some c => .ok (PyVal.str (String.mk [c]))
      | Option.none => .error .indexError
  | .dict _ => .error .keyError
  | _ => .error .typeError

/-- ASCII model of Python `str.isdigit`. -/
def strIsDigit (s : String) : Bool := !s.data.isEmpty && s.data.all Char.isDigit

/-- Innermost loop of `main._extract_app_name_from_message` and
`main._extract_revision_id_from_message`: scan the `sub_elements`, returning the
first element carrying a `"style"` key whose `text` is truthy and whose
digit-ness matches `wantDigit`. Calling `.isdigit()` on a truthy non-string
raises `AttributeError`; probing `"style" in sub_element` on a non-container
raises `TypeError`. -/
def scanSubElements (wantDigit : Bool) : List PyVal → Except PyExc (Option String)
  | [] => .ok Option.none
  | se :: rest =>
      match pyContains se "style" with
      | .error e => .error e
      | .ok false => scanSubElements wantDigit rest
      | .ok true =>
          match pyGet se "text" (PyVal.str "") with
          | .error e => .error e
          | .ok t =>
              if pyTruthy t then
                match t with
                | .str s =>
                    if strIsDigit s == wantDigit then .ok (some s)
                    else scanSubElements wantDigit rest
                | _ => .error .attributeError
              else scanSubElements wantDigit rest

/-- Middle loop: for each `element`, fetch its `elements` and scan them. -/
def scanElements (wantDigit : Bool) : List PyVal → Except PyExc (Option String)
  | [] => .ok Option.none
  | el :: rest =>
      match pyGet el "elements" (PyVal.list []) with
      | .error e => .error e
      | .ok subsV =>
          match pyIter subsV with
          | .error e => .error e
          | .ok subs =>
              match scanSubElements wantDigit subs with
              | .error e => .error e
              | .ok (some s) => .ok (some s)
              | .ok Option.none => scanElements wantDigit rest

/-- Outer loop over `original_message.blocks`. -/
def scanBlocks (wantDigit : Bool) : List PyVal → Except PyExc (Option String)
  | [] => .ok Option.none
  | block :: rest =>
      match pyGet block "elements" (PyVal.list []) with
      | .error e => .error e
      | .ok elsV =>
          match pyIter elsV with
          | .error e => .error e
          | .ok els =>
              match scanElements wantDigit els with
              | .error e => .error e
              | .ok (some s) => .ok (some s)
              | .ok Option.none => scanBlocks wantDigit rest

/-- Body of the extraction helpers before the `except (KeyError, TypeError)`
wrapper. -/
def extractCore (wantDigit : Bool) (payload : PyVal) : Except PyExc (Option String) :=
  match pyGet payload "original_message" (PyVal.dict []) with
  | .error e => .error e
  | .ok om =>
      match pyGet om "blocks" (PyVal.list []) with
      | .error e => .error e
      | .ok blocksV =>
          match pyIter blocksV with
          | .error e => .error e
          | .ok blocks => scanBlocks wantDigit blocks

/-- The `try ... except (KeyError, TypeError): return None` wrapper: only those
two exception classes are converted to `None`; anything else propagates. -/
def catchKeyType (r : Except PyExc (Option String)) : Except PyExc (Option String) :=
  match r with
  | .ok v => .ok v
  | .error .keyError => .ok Option.none
  | .error .typeError => .ok Option.none
  | .error e => .error e

/-- `main._extract_app_name_from_message`: first styled element whose text is
non-empty and not purely numeric. -/
def extract_app_name_from_message (payload : PyVal) : Except PyExc (Option String) :=
  catchKeyType (extractCore false payload)

/-- `main._extract_revision_id_from_message`: first styled element whose text is
purely numeric. -/
def extract_revision_id_from_message (payload : PyVal) : Except PyExc (Option String) :=
  catchKeyType (extractCore true payload)

/-- Plain segments of the rollback confirmation prompt text built at
`main.py` lines 241-244. -/
def rollback_prompt_seg1 (bot : String) : String := "<@" ++ bot ++ ">, To rollback "

/-- Middle plain segment of the rollback confirmation prompt. -/
def rollback_prompt_seg3 : String := " deployment to revision "

/-- Final plain segment of the rollback confirmation prompt. -/
def rollback_prompt_seg5 : String := ", reply \"yes\" to proceed, \"no\" to cancel."

/-- The rollback confirmation prompt text from `main.py` lines 241-244, with the
app name and revision id as inline-code tokens. -/
def rollback_prompt_text (bot app rev : String) : String :=
  rollback_prompt_seg1 bot ++ "`" ++ app ++ "`" ++ rollback_prompt_seg3 ++
    "`" ++ rev ++ "`" ++ rollback_prompt_seg5

/-- Modelled from the spec: the messaging platform's rendering of the rollback
confirmation prompt text into `original_message.blocks` (the rendering itself is
performed by the messaging platform and is not part of this repository's source).
Per the spec's external-interface description, the prompt becomes a rich-text
block whose nested `elements` hold leaf text elements, and each inline-code
token of the prompt becomes a leaf element carrying a `"style"` key; the plain
segments between them become unstyled leaf elements. The leaf texts concatenate
(with the inline-code backticks restored around the styled tokens) to exactly
`rollback_prompt_text bot app rev`. -/
def rollback_prompt_rendered_blocks (bot app rev : String) : PyVal :=
  PyVal.list [PyVal.dict [
    ("type", PyVal.str "rich_text"),
    ("elements", PyVal.list [PyVal.dict [
      ("type", PyVal.str "rich_text_section"),
      ("elements", PyVal.list [
        PyVal.dict [("type", PyVal.str "text"), ("text", PyVal.str (rollback_prompt_seg1 bot))],
        PyVal.dict [("type", PyVal.str "text"), ("text", PyVal.str app),
          ("style", PyVal.dict [("code", PyVal.bool true)])],
        PyVal.dict [("type", PyVal.str "text"), ("text", PyVal.str rollback_prompt_seg3)],
        PyVal.dict [("type", PyVal.str "text"), ("text", PyVal.str rev),
          ("style", PyVal.dict [("code", PyVal.bool true)])],
        PyVal.dict [("type", PyVal.str "text"), ("text", PyVal.str rollback_prompt_seg5)]
      ])
    ]])
  ]]

/-- The interaction payload carrying the rendered rollback prompt, as consumed by
the extraction helpers. -/
def rollback_interaction_message (bot app rev : String) : PyVal :=
  PyVal.dict [("original_message",
    PyVal.dict [("blocks", rollback_prompt_rendered_blocks bot app rev)])]

/-- Sanity: the styled/plain leaf decomposition reassembles the exact prompt
text sent by `handle_mentions`. -/
lemma rendered_blocks_text_reassembles (bot app rev : String) :
    rollback_prompt_seg1 bot ++ ("`" ++ app ++ "`") ++ rollback_prompt_seg3 ++
      ("`" ++ rev ++ "`") ++ rollback_prompt_seg5 = rollback_prompt_text bot app rev := by
  simp [rollback_prompt_text, String.append_assoc]

/-- ASCII model of Python's regex `\s` class and of `str.strip` whitespace. -/
def isPySpace (c : Char) : Bool :=
  c == ' ' || c == '\t' || c == '\n' || c == '\x0d' || c == '\x0b' || c == '\x0c'

/-- Every character fails the whitespace test (`\S`-only text). -/
def allNonspace : List Char → Bool
  | [] => true
  | c :: l => !isPySpace c && allNonspace l

/-- A single whitespace-free non-empty token, the shape matched by `\S+`. -/
def tokenStr (s : String) : Bool := !s.data.isEmpty && allNonspace s.data

/-- C1: round-trip of the confirmation message. For every (appName, revisionId)
pair where appName is a non-empty non-whitespace token that is not purely
numeric and revisionId is purely numeric, rendering the rollback confirmation
prompt and re-extracting from the rendered block structure recovers exactly the
original appName and revisionId. -/
theorem C1_prompt_round_trip (bot app rev : String)
    (happ_tok : tokenStr app = true)
    (happ_num : strIsDigit app = false)
    (hrev : strIsDigit rev = true) :
    extract_app_name_from_message (rollback_interaction_message bot app rev) =
      Except.ok (some app) ∧
    extract_revision_id_from_message (rollback_interaction_message bot app rev) =
      Except.ok (some rev) := by
  have happ_ne : app.data.isEmpty = false := by
    have h := happ_tok
    simp [tokenStr, Bool.and_eq_true] at h
    simpa using h.1
  have hrev_ne : rev.data.isEmpty = false := by
    have h := hrev
    simp [strIsDigit, Bool.and_eq_true] at h
    simpa using h.1
  constructor <;>
    simp +decide [extract_app_name_from_message, extract_revision_id_from_message,
      catchKeyType, extractCore, rollback_interaction_message,
      rollback_prompt_rendered_blocks, pyGet, pyIter, pyContains, pyTruthy,
      scanBlocks, scanElements, scanSubElements, List.find?, happ_ne, happ_num,
      hrev, hrev_ne]

/-- C1 witness: concrete instance of the round-trip. -/
theorem C1_prompt_round_trip_witness :
    tokenStr "payments-api" = true ∧ strIsDigit "payments-api" = false ∧
    strIsDigit "42" = true ∧
    extract_app_name_from_message (rollback_interaction_message "B1" "payments-api" "42") =
      Except.ok (some "payments-api") ∧
    extract_revision_id_from_message (rollback_interaction_message "B1" "payments-api" "42") =
      Except.ok (some "42") :=
  ⟨by decide, by decide, by decide,
    C1_prompt_round_trip "B1" "payments-api" "42" (by decide) (by decide) (by decide)⟩

/-- The typed intent a mention text parses to (the command grammar of
`main.handle_mentions`). -/
inductive Intent where
  | help
  | listApps
  | sync (app : String)
  | logs (app : String)
  | rollbackRevisions (app : String)
  | rollback (app revision : String)
  | unrecognized
  deriving DecidableEq

/-- Strip the literal keyword from the front of the text, returning the
remainder; `Option.none` when the keyword is not a prefix. -/
def stripKw : List Char → List Char → Option (List Char)
  | [], s => some s
  | _ :: _, [] => Option.none
  | k :: kt, c :: ct => if k == c then stripKw kt ct else Option.none

/-- Drop a leading whitespace run (the deterministic `\s*`). -/
def dropSpace : List Char → List Char
  | [] => []
  | c :: l => if isPySpace c then dropSpace l else c :: l

/-- Take the maximal leading whitespace-free run (the greedy `\S+` capture). -/
def takeNonspace : List Char → List Char
  | [] => []
  | c :: l => if isPySpace c then [] else c :: takeNonspace l

/-- Drop the maximal leading whitespace-free run. -/
def dropToSpace : List Char → List Char
  | [] => []
  | c :: l => if isPySpace c then c :: l else dropToSpace l

/-- Every character passes the whitespace test. -/
def allSpace : List Char → Bool
  | [] => true
  | c :: l => isPySpace c && allSpace l

/-- Model of `re.match(r"^\s*KW\s*$", s)`: optional leading whitespace, the
literal keyword, then only whitespace to the end. Since `\s*` can only consume
whitespace and the keyword starts with a non-space character, the greedy
left-to-right match is deterministic. -/
def matchKeywordOnly (kw : List Char) (s : List Char) : Bool :=
  match stripKw kw (dropSpace s) with
  | some r => allSpace r
  | Option.none => false

/-- Model of `re.match(r"^\s*KW\s+(\S+)$", s)`: after the keyword there must be
at least one whitespace character, and the remainder after the whitespace run
must be a non-empty whitespace-free token, which is the capture. -/
def matchOneArg (kw : List Char) (s : List Char) : Option (List Char) :=
  match stripKw kw (dropSpace s) with
  | Option.none => Option.none
  | some [] => Option.none
  | some (c :: rest) =>
      if isPySpace c then
        let r2 := dropSpace rest
        if !r2.isEmpty && allNonspace r2 then some r2
        else Option.none
      else Option.none

/-- Model of `re.match(r"^\s*KW\s+(\S+)\s+(\S+)$", s)`: the first capture is the
maximal whitespace-free run after the first whitespace block (the greedy `\S+`
cannot trade characters with `\s+`, so the match is deterministic), then another
whitespace block must follow, then a final non-empty whitespace-free token. -/
def matchTwoArgs (kw : List Char) (s : List Char) : Option (List Char × List Char) :=
  match stripKw kw (dropSpace s) with
  | Option.none => Option.none
  | some [] => Option.none
  | some (c :: rest) =>
      if isPySpace c then
        let r2 := dropSpace rest
        let tok1 := takeNonspace r2
        if tok1.isEmpty then Option.none
        else
          match dropToSpace r2 with
          | [] => Option.none
          | d :: rest2 =>
              if isPySpace d then
                let r4 := dropSpace rest2
                if !r4.isEmpty && allNonspace r4 then some (tok1, r4)
                else Option.none
              else Option.none
      else Option.none

/-- The regex dispatch chain of `main.handle_mentions` (lines 212 and 223-252),
in source order with first match winning. -/
def parseChars (s : List Char) : Intent :=
  if matchKeywordOnly "help".data s then .help
  else
    match matchOneArg "rollback_revisions".data s with
    | some a => .rollbackRevisions (String.mk a)
    | Option.none =>
        match matchOneArg "sync".data s with
        | some a => .sync (String.mk a)
        | Option.none =>
            match matchOneArg "logs".data s with
            | some a => .logs (String.mk a)
            | Option.none =>
                match matchTwoArgs "rollback".data s with
                | some (a, r) => .rollback (String.mk a) (String.mk r)
                | Option.none =>
                    if matchKeywordOnly "list_apps".data s then .listApps
                    else .unrecognized

/-- The command parser over the trimmed mention text. -/
def parse_command (text : String) : Intent := parseChars text.data

/-- Characters of an appended string. -/
lemma data_append (s t : String) : (s ++ t).data = s.data ++ t.data := rfl

/-- A list of non-whitespace characters is untouched by stripping leading
whitespace. -/
lemma dropSpace_of_all (l : List Char) (h : allNonspace l = true) :
    dropSpace l = l := by
  cases l with
  | nil => rfl
  | cons a t =>
      have ha : isPySpace a = false := by
        cases hA : isPySpace a
        · rfl
        · rw [allNonspace, hA] at h
          simp at h
      simp [dropSpace, ha]

/-- Stripping leading whitespace from a list starting with a non-empty
whitespace-free block is the identity. -/
lemma dropSpace_append (l r : List Char) (h1 : l.isEmpty = false)
    (h2 : allNonspace l = true) :
    dropSpace (l ++ r) = l ++ r := by
  cases l with
  | nil => simp at h1
  | cons a t =>
      have ha : isPySpace a = false := by
        cases hA : isPySpace a
        · rfl
        · rw [allNonspace, hA] at h2
          simp at h2
      simp [dropSpace, ha]

/-- The greedy `\S+` capture stops exactly at an appended space. -/
lemma takeNonspace_append (l r : List Char) (h : allNonspace l = true) :
    takeNonspace (l ++ ' ' :: r) = l := by
  induction l with
  | nil => simp +decide [takeNonspace, isPySpace]
  | cons a t ih =>
      rw [allNonspace, Bool.and_eq_true] at h
      have ha : isPySpace a = false := by simpa using h.1
      simp [takeNonspace, ha, ih h.2]

/-- Dropping the greedy `\S+` capture lands exactly on the appended space. -/
lemma dropToSpace_append (l r : List Char) (h : allNonspace l = true) :
    dropToSpace (l ++ ' ' :: r) = ' ' :: r := by
  induction l with
  | nil => simp +decide [dropToSpace, isPySpace]
  | cons a t ih =>
      rw [allNonspace, Bool.and_eq_true] at h
      have ha : isPySpace a = false := by simpa using h.1
      simp [dropToSpace, ha, ih h.2]

/-- Rebuilding a string from its characters. -/
lemma mk_data (s : String) : String.mk s.data = s := rfl

/-- Splitting the `\S+` token hypothesis into its two components. -/
lemma tokenStr_split (s : String) (h : tokenStr s = true) :
    s.data.isEmpty = false ∧ allNonspace s.data = true := by
  rw [tokenStr, Bool.and_eq_true] at h
  exact ⟨by simpa using h.1, h.2⟩

/-- `rollback_revisions <app>` parses to `RollbackRevisions app`. -/
lemma parse_rollback_revisions (app : String) (h : tokenStr app = true) :
    parse_command ("rollback_revisions " ++ app) = Intent.rollbackRevisions app := by
  obtain ⟨h1, h2⟩ := tokenStr_split app h
  have hd : ("rollback_revisions " ++ app).data =
      'r' :: 'o' :: 'l' :: 'l' :: 'b' :: 'a' :: 'c' :: 'k' :: '_' :: 'r' :: 'e' :: 'v' :: 'i' :: 's' :: 'i' :: 'o' :: 'n' :: 's' :: ' ' :: app.data := rfl
  show parseChars ("rollback_revisions " ++ app).data = Intent.rollbackRevisions app
  rw [hd]
  simp +decide [parseChars, matchKeywordOnly, matchOneArg, matchTwoArgs, stripKw,
    dropSpace, dropSpace_of_all app.data h2, h1, h2, mk_data]

/-- `sync <app>` parses to `Sync app`. -/
lemma parse_sync (app : String) (h : tokenStr app = true) :
    parse_command ("sync " ++ app) = Intent.sync app := by
  obtain ⟨h1, h2⟩ := tokenStr_split app h
  have hd : ("sync " ++ app).data = 's' :: 'y' :: 'n' :: 'c' :: ' ' :: app.data := rfl
  show parseChars ("sync " ++ app).data = Intent.sync app
  rw [hd]
  simp +decide [parseChars, matchKeywordOnly, matchOneArg, matchTwoArgs, stripKw,
    dropSpace, dropSpace_of_all app.data h2, h1, h2, mk_data]

/-- `logs <app>` parses to `Logs app`. -/
lemma parse_logs (app : String) (h : tokenStr app = true) :
    parse_command ("logs " ++ app) = Intent.logs app := by
  obtain ⟨h1, h2⟩ := tokenStr_split app h
  have hd : ("logs " ++ app).data = 'l' :: 'o' :: 'g' :: 's' :: ' ' :: app.data := rfl
  show parseChars ("logs " ++ app).data = Intent.logs app
  rw [hd]
  simp +decide [parseChars, matchKeywordOnly, matchOneArg, matchTwoArgs, stripKw,
    dropSpace, dropSpace_of_all app.data h2, h1, h2, mk_data]

/-- `rollback <app> <revision>` parses to `Rollback app revision`. -/
lemma parse_rollback (app rev : String) (ha : tokenStr app = true)
    (hr : tokenStr rev = true) :
    parse_command ("rollback " ++ app ++ " " ++ rev) = Intent.rollback app rev := by
  obtain ⟨ha1, ha2⟩ := tokenStr_split app ha
  obtain ⟨hr1, hr2⟩ := tokenStr_split rev hr
  have hd : ("rollback " ++ app ++ " " ++ rev).data =
      'r' :: 'o' :: 'l' :: 'l' :: 'b' :: 'a' :: 'c' :: 'k' :: ' ' :: (app.data ++ ' ' :: rev.data) := by
    show ((("rollback ").data ++ app.data) ++ (" ").data) ++ rev.data =
      'r' :: 'o' :: 'l' :: 'l' :: 'b' :: 'a' :: 'c' :: 'k' :: ' ' :: (app.data ++ ' ' :: rev.data)
    simp [List.append_assoc]
  show parseChars ("rollback " ++ app ++ " " ++ rev).data = Intent.rollback app rev
  rw [hd]
  simp +decide [parseChars, matchKeywordOnly, matchOneArg, matchTwoArgs, stripKw,
    dropSpace, dropSpace_append app.data (' ' :: rev.data) ha1 ha2,
    takeNonspace_append app.data rev.data ha2,
    dropToSpace_append app.data rev.data ha2,
    dropSpace_of_all rev.data hr2, ha1, ha2, hr1, hr2, mk_data]

/-- C3: command parsing. Every recognized trimmed mention form maps to its
intent with exact token extraction, first match winning and keywords
case-sensitive; including the spec's two worked examples and two
case-sensitivity checks. -/
theorem C3_command_parsing (app rev : String) (ha : tokenStr app = true)
    (hr : tokenStr rev = true) :
    parse_command "help" = Intent.help ∧
    parse_command " help " = Intent.help ∧
    parse_command "list_apps" = Intent.listApps ∧
    parse_command ("rollback_revisions " ++ app) = Intent.rollbackRevisions app ∧
    parse_command ("sync " ++ app) = Intent.sync app ∧
    parse_command ("logs " ++ app) = Intent.logs app ∧
    parse_command ("rollback " ++ app ++ " " ++ rev) = Intent.rollback app rev ∧
    parse_command "sync payments-api" = Intent.sync "payments-api" ∧
    parse_command "rollback payments-api 42" = Intent.rollback "payments-api" "42" ∧
    parse_command "HELP" = Intent.unrecognized ∧
    parse_command "Sync payments-api" = Intent.unrecognized :=
  ⟨by decide, by decide, by decide, parse_rollback_revisions app ha, parse_sync app ha,
    parse_logs app ha, parse_rollback app rev ha hr, by decide, by decide, by decide,
    by decide⟩

/-- C3 witness: concrete instantiation of the parsing theorem. -/
theorem C3_command_parsing_witness :
    tokenStr "payments-api" = true ∧ tokenStr "42" = true ∧
    parse_command ("sync " ++ "payments-api") = Intent.sync "payments-api" :=
  ⟨by decide, by decide,
    (C3_command_parsing "payments-api" "42" (by decide) (by decide)).2.2.2.2.1⟩

/-- The configuration surface of `config.Config` relevant to the handlers. -/
structure Config where
  allowed_users : List String
  auto_disable_sync_on_rollback : Bool

/-- `Config.is_user_authorized`: open access when the allow-list is empty,
membership otherwise. -/
def Config.is_user_authorized (cfg : Config) (user_id : String) : Bool :=
  if cfg.allowed_users.isEmpty then true else cfg.allowed_users.contains user_id

/-- `Config.is_user_authorized` applied to a dynamic value (Python `in` compares
the value against each allow-list entry; cross-type comparison is `False`). -/
def Config.pyAuthorized (cfg : Config) (user_id : PyVal) : Bool :=
  if cfg.allowed_users.isEmpty then true
  else cfg.allowed_users.any (fun u => pyEqStr user_id u)

/-- Observable external actions of the handlers: messaging-platform posts and
deployment-controller calls, plus a marker for each invocation of the
authorization gate. -/
inductive Effect where
  | authCheck (user : PyVal)
  | sendHelp (channel user bot : String)
  | sendDeny (channel user : String)
  | sendConfirmation (channel callbackId messageText : String)
  | postResponse (url : PyVal) (text : String)
  | replyListTable (url : PyVal)
  | replyRollbackTable (url : PyVal)
  | replyLogsTable (url : PyVal) (app : String) (channel : PyVal)
  | argoListApps
  | argoGetApp (app : String)
  | argoSync (app : String)
  | argoRollback (app rev : String)
  | argoLogs (app : String)
  | rollbackPost (app : String) (id : Int)
  | disableCall (app : String)
  | patchApp (app : String)
  | putApp (app : String)

/-- Oracle for the results of the deployment-controller calls made from the
interaction handler. -/
structure Oracle where
  listApps : Option (List PyVal)
  getApp : String → Option PyVal
  sync : String → String
  rollback : String → String → String
  logs : String → Option String

/-- Is a channel message posted (the mention handler's replies)? -/
def isChannelReply : Effect → Bool
  | .sendHelp _ _ _ => true
  | .sendDeny _ _ => true
  | .sendConfirmation _ _ _ => true
  | _ => false

/-- Is something posted to the interaction's response URL? -/
def postsToResponseUrl : Effect → Bool
  | .postResponse _ _ => true
  | .replyListTable _ => true
  | .replyRollbackTable _ => true
  | .replyLogsTable _ _ _ => true
  | _ => false

/-- Is a deployment-controller call made? -/
def isControllerCall : Effect → Bool
  | .argoListApps => true
  | .argoGetApp _ => true
  | .argoSync _ => true
  | .argoRollback _ _ => true
  | .argoLogs _ => true
  | .rollbackPost _ _ => true
  | .disableCall _ => true
  | .patchApp _ => true
  | .putApp _ => true
  | _ => false

/-- Field extraction prelude of `main.handle_interactions` (lines 282-286), in
source order: `callback_id`, `actions[0].value`, `response_url`, `channel.id`,
`user.id`. Any exception raised here propagates out of the handler. -/
def fieldExtract (payload : PyVal) :
    Except PyExc (PyVal × PyVal × PyVal × PyVal × PyVal) :=
  match pyGet payload "callback_id" PyVal.none with
  | .error e => .error e
  | .ok cb =>
  match pyGet payload "actions" (PyVal.list [PyVal.dict []]) with
  | .error e => .error e
  | .ok actions =>
  match pyIndex actions 0 with
  | .error e => .error e
  | .ok a0 =>
  match pyGet a0 "value" PyVal.none with
  | .error e => .error e
  | .ok av =>
  match pyGet payload "response_url" PyVal.none with
  | .error e => .error e
  | .ok ru =>
  match pyGet payload "channel" (PyVal.dict []) with
  | .error e => .error e
  | .ok chObj =>
  match pyGet chObj "id" PyVal.none with
  | .error e => .error e
  | .ok ch =>
  match pyGet payload "user" (PyVal.dict []) with
  | .error e => .error e
  | .ok uObj =>
  match pyGet uObj "id" PyVal.none with
  | .error e => .error e
  | .ok uid => .ok (cb, av, ru, ch, uid)

/-- Reply texts of the interaction handler (`main.py` lines 296-396). -/
def accessDeniedInteractionText : String :=
  ":lock: Access Denied. You are not authorized to perform this operation. Please contact your DevOps team if you need access."

/-- Failure text for the list branch. -/
def listFailText : String := "Failed to retrieve the list of applications."

/-- Failure text when the app name cannot be recovered. -/
def extractAppFailText : String := "Could not extract application name from message."

/-- Failure text when app name or revision id cannot be recovered. -/
def extractRollbackFailText : String :=
  "Could not extract application name or revision ID from message."

/-- Failure text for the revisions branch. -/
def revisionsFailText (app : String) : String :=
  "Failed to retrieve revisions for `" ++ app ++ "`."

/-- Success text for the sync branch. -/
def syncOkText (app : String) : String :=
  "`" ++ app ++ "` synced successfully. :white_check_mark:"

/-- Failure text for the sync branch. -/
def syncFailText (app : String) : String :=
  "Failed to sync `" ++ app ++ "`. Please check ArgoCD logs."

/-- Success text for the rollback branch. -/
def rollbackOkText (app rev : String) : String :=
  "`" ++ app ++ "` rolled back to revision `" ++ rev ++ "` successfully. :white_check_mark:"

/-- Auto-sync failure text when automatic disabling was attempted and failed. -/
def autosyncAttemptedText (app : String) : String :=
  "`" ++ app ++ "` rollback failed: Auto-sync is enabled. Attempted to disable auto-sync automatically but it failed. Please disable auto-sync manually in ArgoCD and try again."

/-- Auto-sync failure text when automatic disabling is not configured. -/
def autosyncManualText (app : String) : String :=
  "`" ++ app ++ "` rollback failed: Auto-sync is enabled. Please disable auto-sync in ArgoCD first, or set `AUTO_DISABLE_SYNC_ON_ROLLBACK=True` to enable automatic disabling."

/-- Generic rollback failure text. -/
def rollbackFailText (app : String) : String :=
  "Failed to rollback `" ++ app ++ "`. Please check ArgoCD logs."

/-- Failure text for the logs branch. -/
def logsFailText (app : String) : String :=
  "Failed to retrieve logs for `" ++ app ++ "`."

/-- Truthiness of an optional controller result (`if app_data:` in Python). -/
def optPyTruthy : Option PyVal → Bool
  | some v => pyTruthy v
  | Option.none => false

/-- The `"yes"` dispatch of `main.handle_interactions` (lines 318-396):
branch on `callback_id`, recover tokens from the clicked message where needed,
call the controller and reply via the response URL. Unknown callback ids fall
through to the bare acknowledgement. -/
def yesBranch (cfg : Config) (orc : Oracle) (payload : PyVal) (cb ru ch : PyVal) :
    Except PyExc (Nat × List Effect) :=
  if pyEqStr cb "list_app_confirmation" then
    match orc.listApps with
    | some l =>
        if l.isEmpty then .ok (200, [.argoListApps, .postResponse ru listFailText])
        else .ok (200, [.argoListApps, .replyListTable ru])
    | Option.none => .ok (200, [.argoListApps, .postResponse ru listFailText])
  else if pyEqStr cb "rollback_revisions" then
    match extract_app_name_from_message payload with
    | .error e => .error e
    | .ok (some a) =>
        if optPyTruthy (orc.getApp a) then
          .ok (200, [.argoGetApp a, .replyRollbackTable ru])
        else .ok (200, [.argoGetApp a, .postResponse ru (revisionsFailText a)])
    | .ok Option.none => .ok (200, [.postResponse ru extractAppFailText])
  else if pyEqStr cb "sync_app" then
    match extract_app_name_from_message payload with
    | .error e => .error e
    | .ok (some a) =>
        if orc.sync a = "ok" then .ok (200, [.argoSync a, .postResponse ru (syncOkText a)])
        else .ok (200, [.argoSync a, .postResponse ru (syncFailText a)])
    | .ok Option.none => .ok (200, [.postResponse ru extractAppFailText])
  else if pyEqStr cb "rollback_app" then
    match extract_app_name_from_message payload with
    | .error e => .error e
    | .ok aOpt =>
        match extract_revision_id_from_message payload with
        | .error e => .error e
        | .ok rOpt =>
            match aOpt, rOpt with
            | some a, some r =>
                let st := orc.rollback a r
                let txt :=
                  if st = "ok" then rollbackOkText a r
                  else if st = "autosync_enabled" then
                    if cfg.auto_disable_sync_on_rollback then autosyncAttemptedText a
                    else autosyncManualText a
                  else rollbackFailText a
                .ok (200, [.argoRollback a r, .postResponse ru txt])
            | _, _ => .ok (200, [.postResponse ru extractRollbackFailText])
  else if pyEqStr cb "logs_app" then
    match extract_app_name_from_message payload with
    | .error e => .error e
    | .ok (some a) =>
        match orc.logs a with
        | some s =>
            if s.data.isEmpty then .ok (200, [.argoLogs a, .postResponse ru (logsFailText a)])
            else .ok (200, [.argoLogs a, .replyLogsTable ru a ch])
        | Option.none => .ok (200, [.argoLogs a, .postResponse ru (logsFailText a)])
    | .ok Option.none => .ok (200, [.postResponse ru extractAppFailText])
  else .ok (200, [])

/-- The body of `main.handle_interactions` after field extraction
(lines 288-398): missing-field acknowledgement, the authorization gate for
non-`"no"` clicks with a truthy user id, the `"no"` cancellation, the
defensive non-`"yes"` no-op, then the `"yes"` dispatch. -/
def handleFields (cfg : Config) (orc : Oracle) (payload : PyVal)
    (cb av ru _ch uid : PyVal) : Except PyExc (Nat × List Effect) :=
  if !pyTruthy cb || !pyTruthy av || !pyTruthy ru then .ok (200, [])
  else
    let authInvoked := !pyEqStr av "no" && pyTruthy uid
    let pre : List Effect := if authInvoked then [.authCheck uid] else []
    if authInvoked && !cfg.pyAuthorized uid then
      .ok (200, pre ++ [.postResponse ru accessDeniedInteractionText])
    else if pyEqStr av "no" then
      .ok (200, pre ++ [.postResponse ru "Request cancelled."])
    else if !pyEqStr av "yes" then
      .ok (200, pre)
    else
      match yesBranch cfg orc payload cb ru _ch with
      | .ok (st, effs) => .ok (st, pre ++ effs)
      | .error e => .error e

/-- `main.handle_interactions` on an already-JSON-decoded payload: extract the
required fields, then dispatch. Exceptions raised during extraction or during
the `"yes"` dispatch propagate (there is no surrounding handler). -/
def handle_interactions (cfg : Config) (orc : Oracle) (payload : PyVal) :
    Except PyExc (Nat × List Effect) :=
  match fieldExtract payload with
  | .error e => .error e
  | .ok (cb, av, ru, ch, uid) => handleFields cfg orc payload cb av ru ch uid

/-- The mention event after the messaging platform's envelope: subtype, channel,
user, the command text with the leading mention token stripped and whitespace
trimmed (`re.sub(r"^<.+>\s*", "", text).strip()`), and the `authorizations`
array (each entry's `user_id`). -/
structure MentionEvent where
  subtype : Option String
  channel : Option String
  user : Option String
  text : String
  authorizations : List (Option String)

/-- Truthiness of an optional string field (`None` and `""` are falsy). -/
def optTruthy : Option String → Bool
  | some s => !s.data.isEmpty
  | Option.none => false

/-- Confirmation prompt text for `rollback_revisions` (`main.py` line 225). -/
def rollbackRevisionsPromptText (bot app : String) : String :=
  "<@" ++ bot ++ ">, To list all available revisions of `" ++ app ++ "`, reply \"yes\" to proceed, \"no\" to cancel."

/-- Confirmation prompt text for `sync` (`main.py` line 230). -/
def syncPromptText (bot app : String) : String :=
  "<@" ++ bot ++ ">, To sync `" ++ app ++ "` deployment with latest release, reply \"yes\" to proceed, \"no\" to cancel."

/-- Confirmation prompt text for `logs` (`main.py` line 235). -/
def logsPromptText (bot app : String) : String :=
  "<@" ++ bot ++ ">, To download the logs of `" ++ app ++ "`, reply \"yes\" to proceed, \"no\" to cancel."

/-- Confirmation prompt text for `list_apps` (`main.py` line 248). -/
def listAppsPromptText (bot : String) : String :=
  "<@" ++ bot ++ ">, To list running apps, reply \"yes\" to proceed, \"no\" to cancel."

/-- `main.handle_mentions` (lines 184-254) over the trimmed mention text:
drop subtyped events and events missing channel, user or a bot user id; answer
`help` without any authorization check; gate everything else on the allow-list
(sending the deny message on failure); then dispatch the parsed command to a
confirmation prompt, logging unrecognized text without replying. -/
def handle_mentions (cfg : Config) (ev : MentionEvent) : Nat × List Effect :=
  if ev.subtype.isSome then (200, [])
  else if !optTruthy ev.channel || !optTruthy ev.user then (200, [])
  else
    match ev.authorizations with
    | [] => (200, [])
    | a0 :: _ =>
        if !optTruthy a0 then (200, [])
        else
          let channel := ev.channel.getD ""
          let user := ev.user.getD ""
          let bot := a0.getD ""
          if parse_command ev.text = Intent.help then
            (200, [.sendHelp channel user bot])
          else
            let pre : List Effect := [.authCheck (PyVal.str user)]
            if !cfg.is_user_authorized user then (200, pre ++ [.sendDeny channel user])
            else
              match parse_command ev.text with
              | .rollbackRevisions a =>
                  (200, pre ++ [.sendConfirmation channel "rollback_revisions"
                    (rollbackRevisionsPromptText bot a)])
              | .sync a =>
                  (200, pre ++ [.sendConfirmation channel "sync_app" (syncPromptText bot a)])
              | .logs a =>
                  (200, pre ++ [.sendConfirmation channel "logs_app" (logsPromptText bot a)])
              | .rollback a r =>
                  (200, pre ++ [.sendConfirmation channel "rollback_app"
                    (rollback_prompt_text bot a r)])
              | .listApps =>
                  (200, pre ++ [.sendConfirmation channel "list_app_confirmation"
                    (listAppsPromptText bot)])
              | _ => (200, pre)

/-- Lower-casing for the case-insensitive `"auto-sync"` test (`message.lower()`). -/
def pyLower (s : String) : String := String.mk (s.data.map Char.toLower)

/-- Digits continued after the first one in Python `int()` parsing: single
underscores are allowed between digits only. -/
def digitsAfter (acc : Nat) : List Char → Option Nat
  | [] => some acc
  | '_' :: c :: rest =>
      if c.isDigit then digitsAfter (acc * 10 + (c.toNat - 48)) rest else Option.none
  | c :: rest =>
      if c.isDigit then digitsAfter (acc * 10 + (c.toNat - 48)) rest else Option.none

/-- A digit block for Python `int()`: must start with a digit. -/
def digitsVal : List Char → Option Nat
  | [] => Option.none
  | c :: rest => if c.isDigit then digitsAfter (c.toNat - 48) rest else Option.none

/-- Strip leading and trailing whitespace. -/
def pyStrip (l : List Char) : List Char := (dropSpace (dropSpace l).reverse).reverse

/-- ASCII model of Python `int(s)`: surrounding whitespace stripped, an optional
sign, then base-10 digits with single underscores allowed between digits;
`Option.none` models `ValueError`. -/
def int_of_string (s : String) : Option Int :=
  match pyStrip s.data with
  | '+' :: rest => (digitsVal rest).map Int.ofNat
  | '-' :: rest => (digitsVal rest).map (fun n => -(Int.ofNat n))
  | l => (digitsVal l).map Int.ofNat

/-- An HTTP response as observed by `rollback_application`: status code and the
result of `.json()` (`Option.none` models a body that fails to decode). -/
structure HttpResponse where
  status : Nat
  jsonBody : Option PyVal

/-- Oracle for the network interactions of `rollback_application`: the first
POST's response, the result of `disable_auto_sync`, and the retried POST's
response. -/
structure RollbackOracle where
  first : HttpResponse
  disable : Bool
  retry : HttpResponse

/-- `argocd_api.rollback_application` (lines 205-299): local integer validation
of the revision id, the rollback POST, the structured auto-sync error detection
(`code == 9` and `"auto-sync" in message.lower()`), the optional
disable-and-retry-once remediation, and the generic error fallthrough. Any
exception inside the response-inspection block is swallowed by the broad
`except` and falls through to the generic error. The effect list records every
rollback POST issued and the `disable_auto_sync` invocation. -/
def rollback_application (cfg : Config) (orc : RollbackOracle) (app rev : String) :
    String × List Effect :=
  match int_of_string rev with
  | Option.none => ("error", [])
  | some idInt =>
      let e0 : List Effect := [.rollbackPost app idInt]
      if orc.first.status = 200 then ("ok", e0)
      else
        let autoRes : Option (String × List Effect) :=
          match orc.first.jsonBody with
          | Option.none => Option.none
          | some (PyVal.dict entries) =>
              let code :=
                match entries.find? (fun kv => kv.1 == "code") with
                | some kv => kv.2
                | Option.none => PyVal.none
              let msgV :=
                match entries.find? (fun kv => kv.1 == "message") with
                | some kv => kv.2
                | Option.none => PyVal.str ""
              match msgV with
              | PyVal.str m =>
                  if pyEqInt code 9 && strContainsList "auto-sync".data (pyLower m).data then
                    if cfg.auto_disable_sync_on_rollback then
                      if orc.disable then
                        let e1 := e0 ++ [.disableCall app, .rollbackPost app idInt]
                        if orc.retry.status = 200 then some ("ok", e1)
                        else some ("error", e1)
                      else some ("autosync_enabled", e0 ++ [.disableCall app])
                    else some ("autosync_enabled", e0)
                  else Option.none
              | _ => Option.none
          | some _ => Option.none
        match autoRes with
        | some r => r
        | Option.none => ("error", e0)

/-- Oracle for the network interactions of `disable_auto_sync`: the fetched
application object and the PATCH/PUT response statuses. -/
structure DisableOracle where
  getApp : Option PyVal
  patchStatus : Nat
  putStatus : Nat

/-- The `spec.syncPolicy.automated` lookup chain of `disable_auto_sync`
(lines 111-115), with each `.get` defaulting to an empty container. -/
def fetchAutomated (appData : PyVal) : Except PyExc PyVal :=
  match pyGet appData "spec" (PyVal.dict []) with
  | .error e => .error e
  | .ok spec =>
      match pyGet spec "syncPolicy" (PyVal.dict []) with
      | .error e => .error e
      | .ok sync_policy => pyGet sync_policy "automated" PyVal.none

/-- `argocd_api.disable_auto_sync` (lines 94-202): fetch the application; a
falsy result is a failure; when `syncPolicy.automated` is absent or empty the
function short-circuits to `True` with no write; otherwise PATCH, falling back
to PUT, each succeeding on HTTP 200. The outer broad `except` converts any
exception in the lookup chain into `False`. -/
def disable_auto_sync (orc : DisableOracle) (app : String) : Bool × List Effect :=
  let e0 : List Effect := [.argoGetApp app]
  let appData := match orc.getApp with | some v => v | Option.none => PyVal.none
  if !pyTruthy appData then (false, e0)
  else
    match fetchAutomated appData with
    | .error _ => (false, e0)
    | .ok automated =>
        if !pyTruthy automated then (true, e0)
        else
          let e1 := e0 ++ [.patchApp app]
          if orc.patchStatus = 200 then (true, e1)
          else
            let e2 := e1 ++ [.putApp app]
            if orc.putStatus = 200 then (true, e2) else (false, e2)

/-- C5: for every rollback call whose revision id string is not parseable as an
integer, the outcome is `"error"` and zero network requests are issued. -/
theorem C5_nonnumeric_revision (cfg : Config) (orc : RollbackOracle) (app rev : String)
    (h : int_of_string rev = Option.none) :
    rollback_application cfg orc app rev = ("error", []) := by
  simp [rollback_application, h]

/-- C5 witness: the concrete revision string `"abc"`. -/
theorem C5_nonnumeric_revision_witness :
    int_of_string "abc" = Option.none ∧
    rollback_application ⟨[], false⟩
        ⟨⟨200, Option.none⟩, true, ⟨200, Option.none⟩⟩ "payments-api" "abc" =
      ("error", []) :=
  ⟨rfl, C5_nonnumeric_revision ⟨[], false⟩
    ⟨⟨200, Option.none⟩, true, ⟨200, Option.none⟩⟩ "payments-api" "abc" rfl⟩

/-- C2: rollback auto-sync handling. When the first POST returns non-200 with a
body whose `code` is `9` and whose message contains `"auto-sync"`
case-insensitively: (i) remediation enabled, disable succeeds and the single
retry returns 200 → `"ok"`; (ii) remediation disabled → `"autosync_enabled"`
with zero retries; (iii) remediation enabled but disable fails →
`"autosync_enabled"` with no retry; (iv) the retry happens exactly once, a
non-200 retry yielding `"error"`. -/
theorem C2_rollback_autosync (cfg : Config) (orc : RollbackOracle) (app rev : String)
    (idInt : Int) (entries : List (String × PyVal)) (m : String)
    (hid : int_of_string rev = some idInt)
    (hst : orc.first.status ≠ 200)
    (hbody : orc.first.jsonBody = some (PyVal.dict entries))
    (hcode : entries.find? (fun kv => kv.1 == "code") = some ("code", PyVal.int 9))
    (hmsg : entries.find? (fun kv => kv.1 == "message") = some ("message", PyVal.str m))
    (hsub : strContainsList "auto-sync".data (pyLower m).data = true) :
    (cfg.auto_disable_sync_on_rollback = true → orc.disable = true →
      orc.retry.status = 200 →
      rollback_application cfg orc app rev =
        ("ok", [.rollbackPost app idInt, .disableCall app, .rollbackPost app idInt])) ∧
    (cfg.auto_disable_sync_on_rollback = false →
      rollback_application cfg orc app rev =
        ("autosync_enabled", [.rollbackPost app idInt])) ∧
    (cfg.auto_disable_sync_on_rollback = true → orc.disable = false →
      rollback_application cfg orc app rev =
        ("autosync_enabled", [.rollbackPost app idInt, .disableCall app])) ∧
    (cfg.auto_disable_sync_on_rollback = true → orc.disable = true →
      orc.retry.status ≠ 200 →
      rollback_application cfg orc app rev =
        ("error", [.rollbackPost app idInt, .disableCall app, .rollbackPost app idInt])) := by
  refine ⟨?_, ?_, ?_, ?_⟩ <;> intros <;>
    simp +decide [rollback_application, hid, hst, hbody, hcode, hmsg, hsub, pyEqInt, *]

/-- C2 witness: a concrete auto-sync-blocked rollback with remediation enabled,
a successful disable and a 200 retry. -/
theorem C2_rollback_autosync_witness :
    int_of_string "42" = some 42 ∧
    rollback_application ⟨[], true⟩
        ⟨⟨409, some (PyVal.dict [("code", PyVal.int 9),
            ("message", PyVal.str "Rollback cannot be initiated when Auto-Sync is enabled")])⟩,
          true, ⟨200, Option.none⟩⟩ "payments-api" "42" =
      ("ok", [.rollbackPost "payments-api" 42, .disableCall "payments-api",
        .rollbackPost "payments-api" 42]) :=
  ⟨rfl, (C2_rollback_autosync ⟨[], true⟩
    ⟨⟨409, some (PyVal.dict [("code", PyVal.int 9),
        ("message", PyVal.str "Rollback cannot be initiated when Auto-Sync is enabled")])⟩,
      true, ⟨200, Option.none⟩⟩ "payments-api" "42" 42
    [("code", PyVal.int 9),
      ("message", PyVal.str "Rollback cannot be initiated when Auto-Sync is enabled")]
    "Rollback cannot be initiated when Auto-Sync is enabled"
    rfl (by decide) rfl rfl rfl rfl).1 rfl rfl rfl⟩

/-- C9: DisableAutoSync idempotent short-circuit. For every application whose
fetched spec has `syncPolicy.automated` absent or empty, `disable_auto_sync`
returns `true` and performs zero write calls (no PATCH and no PUT). -/
theorem C9_disable_auto_sync_idempotent (orc : DisableOracle) (app : String)
    (v automated : PyVal)
    (hget : orc.getApp = some v) (htr : pyTruthy v = true)
    (hchain : fetchAutomated v = Except.ok automated)
    (hfalsy : pyTruthy automated = false) :
    disable_auto_sync orc app = (true, [Effect.argoGetApp app]) := by
  simp [disable_auto_sync, hget, htr, hchain, hfalsy]

/-- C9 witness: an application object with a spec and no `syncPolicy.automated`. -/
theorem C9_disable_auto_sync_idempotent_witness :
    pyTruthy (PyVal.dict [("spec", PyVal.dict [("project", PyVal.str "default")])]) = true ∧
    fetchAutomated (PyVal.dict [("spec", PyVal.dict [("project", PyVal.str "default")])]) =
      Except.ok PyVal.none ∧
    disable_auto_sync
        ⟨some (PyVal.dict [("spec", PyVal.dict [("project", PyVal.str "default")])]), 500, 500⟩
        "payments-api" =
      (true, [Effect.argoGetApp "payments-api"]) :=
  ⟨rfl, rfl, C9_disable_auto_sync_idempotent
    ⟨some (PyVal.dict [("spec", PyVal.dict [("project", PyVal.str "default")])]), 500, 500⟩
    "payments-api"
    (PyVal.dict [("spec", PyVal.dict [("project", PyVal.str "default")])]) PyVal.none
    rfl rfl rfl rfl⟩

/-- Is an invocation of the authorization gate recorded? -/
def isAuthCheck : Effect → Bool
  | .authCheck _ => true
  | _ => false

/-- Open-access configuration (empty allow-list). -/
def cfgOpen : Config := ⟨[], false⟩

/-- Configuration with a non-empty allow-list containing only `"U1"`. -/
def cfgAllowU1 : Config := ⟨["U1"], false⟩

/-- A deployment-controller oracle whose every call fails. -/
def orcDefault : Oracle :=
  ⟨Option.none, fun _ => Option.none, fun _ => "error", fun _ _ => "error",
    fun _ => Option.none⟩

/-- A deployment-controller oracle whose list call returns one application. -/
def orcOneApp : Oracle :=
  ⟨some [PyVal.dict [("metadata", PyVal.dict [("name", PyVal.str "payments-api")])]],
    fun _ => Option.none, fun _ => "error", fun _ _ => "error", fun _ => Option.none⟩

/-- An interaction payload whose `original_message.blocks` contains a bare
string instead of a block object. -/
def badBlocksPayload : PyVal :=
  PyVal.dict [("callback_id", PyVal.str "sync_app"),
    ("actions", PyVal.list [PyVal.dict [("name", PyVal.str "confirmation"),
      ("value", PyVal.str "yes")]]),
    ("response_url", PyVal.str "https://hooks.example/r1"),
    ("original_message", PyVal.dict [("blocks", PyVal.list [PyVal.str "oops"])])]

/-- C10: the message-token extraction functions are not total — they catch only
`KeyError` and `TypeError`, so a payload whose `original_message.blocks` list
contains a non-dict element (here a string) makes extraction raise
`AttributeError` (from `.get` on a string), which is not caught and propagates
out of the interaction handler instead of returning `None`. -/
theorem C10_extraction_not_total :
    extract_app_name_from_message badBlocksPayload =
      Except.error PyExc.attributeError ∧
    extract_revision_id_from_message badBlocksPayload =
      Except.error PyExc.attributeError ∧
    handle_interactions cfgOpen orcDefault badBlocksPayload =
      Except.error PyExc.attributeError :=
  ⟨rfl, rfl, rfl⟩

/-- C6 (amended): for every interaction payload whose required-field extraction
evaluates without raising and yields a falsy `callback_id`, action value or
`response_url`, the handler returns HTTP 200 and performs no external contact. -/
theorem C6_malformed_payload (cfg : Config) (orc : Oracle)
    (payload cb av ru ch uid : PyVal)
    (hf : fieldExtract payload = .ok (cb, av, ru, ch, uid))
    (hmiss : pyTruthy cb = false ∨ pyTruthy av = false ∨ pyTruthy ru = false) :
    handle_interactions cfg orc payload = .ok (200, []) := by
  rcases hmiss with h | h | h <;> simp [handle_interactions, hf, handleFields, h]

/-- C6 witness: a payload missing `callback_id` is acknowledged with no effects. -/
theorem C6_malformed_payload_witness :
    fieldExtract (PyVal.dict [("actions",
        PyVal.list [PyVal.dict [("value", PyVal.str "yes")]]),
        ("response_url", PyVal.str "https://hooks.example/r1")]) =
      .ok (PyVal.none, PyVal.str "yes", PyVal.str "https://hooks.example/r1",
        PyVal.none, PyVal.none) ∧
    handle_interactions cfgOpen orcDefault
        (PyVal.dict [("actions", PyVal.list [PyVal.dict [("value", PyVal.str "yes")]]),
          ("response_url", PyVal.str "https://hooks.example/r1")]) =
      .ok (200, []) :=
  ⟨rfl, C6_malformed_payload cfgOpen orcDefault _ _ _ _ _ _ rfl (Or.inl rfl)⟩

/-- An interaction payload with an empty `actions` array: the action value is
missing, and `payload.get("actions", [{}])[0]` raises `IndexError`. -/
def emptyActionsPayload : PyVal :=
  PyVal.dict [("callback_id", PyVal.str "rollback_app"),
    ("actions", PyVal.list []),
    ("response_url", PyVal.str "https://hooks.example/r1")]

/-- C6 counterexample: a payload missing a required field (its `actions` array
is empty, so there is no action value) does not produce the claimed silent 200
acknowledgement — field extraction raises an uncaught `IndexError`. -/
theorem C6_counterexample :
    handle_interactions cfgOpen orcDefault emptyActionsPayload =
      Except.error PyExc.indexError ∧
    handle_interactions cfgOpen orcDefault emptyActionsPayload ≠
      Except.ok (200, ([] : List Effect)) :=
  ⟨rfl, by
    have h : handle_interactions cfgOpen orcDefault emptyActionsPayload =
        Except.error PyExc.indexError := rfl
    rw [h]
    simp⟩

/-- C7 (amended): for every interaction whose action value is neither `"yes"`
nor `"no"`, issued by a user who is authorized or whose payload lacks a truthy
user id, resolving the interaction is a no-op: no reply is sent to the response
URL, no deployment-controller call is made, and the handler merely acknowledges
(recording at most the authorization-gate invocation). An unauthorized user
with such an action value instead receives the access-denied reply. -/
theorem C7_unknown_action (cfg : Config) (orc : Oracle)
    (payload cb av ru ch uid : PyVal)
    (hf : fieldExtract payload = .ok (cb, av, ru, ch, uid))
    (hcb : pyTruthy cb = true) (hav : pyTruthy av = true) (hru : pyTruthy ru = true)
    (hno : pyEqStr av "no" = false) (hyes : pyEqStr av "yes" = false)
    (hok : pyTruthy uid = false ∨ cfg.pyAuthorized uid = true) :
    handle_interactions cfg orc payload =
      .ok (200, if pyTruthy uid then [Effect.authCheck uid] else []) := by
  cases hu : pyTruthy uid with
  | false =>
      simp [handle_interactions, hf, handleFields, hcb, hav, hru, hno, hyes, hu]
  | true =>
      have hauth : cfg.pyAuthorized uid = true := by
        rcases hok with h | h
        · rw [h] at hu; exact absurd hu (by simp)
        · exact h
      simp [handle_interactions, hf, handleFields, hcb, hav, hru, hno, hyes, hu, hauth]

/-- C7 witness: an authorized user clicking an unknown action value. -/
theorem C7_unknown_action_witness :
    handle_interactions cfgAllowU1 orcDefault
        (PyVal.dict [("callback_id", PyVal.str "sync_app"),
          ("actions", PyVal.list [PyVal.dict [("value", PyVal.str "maybe")]]),
          ("response_url", PyVal.str "https://hooks.example/r1"),
          ("user", PyVal.dict [("id", PyVal.str "U1")])]) =
      .ok (200, if pyTruthy (PyVal.str "U1") then [Effect.authCheck (PyVal.str "U1")]
        else []) :=
  C7_unknown_action cfgAllowU1 orcDefault
    (PyVal.dict [("callback_id", PyVal.str "sync_app"),
      ("actions", PyVal.list [PyVal.dict [("value", PyVal.str "maybe")]]),
      ("response_url", PyVal.str "https://hooks.example/r1"),
      ("user", PyVal.dict [("id", PyVal.str "U1")])])
    (PyVal.str "sync_app") (PyVal.str "maybe") (PyVal.str "https://hooks.example/r1")
    PyVal.none (PyVal.str "U1") rfl rfl rfl rfl rfl rfl (Or.inr rfl)

/-- An interaction payload with an unknown action value from user `"U2"`. -/
def unknownActionPayload : PyVal :=
  PyVal.dict [("callback_id", PyVal.str "sync_app"),
    ("actions", PyVal.list [PyVal.dict [("value", PyVal.str "maybe")]]),
    ("response_url", PyVal.str "https://hooks.example/r1"),
    ("user", PyVal.dict [("id", PyVal.str "U2")])]

/-- C7 counterexample: with the allow-list `["U1"]`, user `"U2"` clicking an
action value that is neither `"yes"` nor `"no"` is not a no-op — the handler
posts the access-denied reply to the response URL. -/
theorem C7_counterexample :
    handle_interactions cfgAllowU1 orcDefault unknownActionPayload =
      .ok (200, [Effect.authCheck (PyVal.str "U2"),
        Effect.postResponse (PyVal.str "https://hooks.example/r1")
          accessDeniedInteractionText]) ∧
    (match handle_interactions cfgAllowU1 orcDefault unknownActionPayload with
      | .ok r => r.2.any postsToResponseUrl
      | .error _ => false) = true :=
  ⟨rfl, rfl⟩

/-- C8 (amended): for every mention whose text parses to no recognized command,
an authorized user gets no channel reply (the command is only logged) and the
handler acknowledges with 200; a user outside a non-empty allow-list instead
receives the access-denied channel message, because authorization runs before
parsing. -/
theorem C8_unrecognized_mention (cfg : Config) (ev : MentionEvent)
    (bot : String) (tl : List (Option String))
    (hs : ev.subtype = Option.none)
    (hch : optTruthy ev.channel = true) (hu : optTruthy ev.user = true)
    (hauth : ev.authorizations = some bot :: tl) (hbot : bot.data.isEmpty = false)
    (hun : parse_command ev.text = Intent.unrecognized) :
    (cfg.is_user_authorized (ev.user.getD "") = true →
      handle_mentions cfg ev =
        (200, [Effect.authCheck (PyVal.str (ev.user.getD ""))]) ∧
      (handle_mentions cfg ev).2.any isChannelReply = false) ∧
    (cfg.is_user_authorized (ev.user.getD "") = false →
      handle_mentions cfg ev =
        (200, [Effect.authCheck (PyVal.str (ev.user.getD "")),
          Effect.sendDeny (ev.channel.getD "") (ev.user.getD "")])) := by
  have hb : optTruthy (some bot) = true := by simp [optTruthy, hbot]
  constructor <;> intro hA <;>
    simp [handle_mentions, hs, hch, hu, hauth, hb, hun, hA, isChannelReply, isAuthCheck]

/-- C8 witness: an authorized user's unrecognized mention is only acknowledged. -/
theorem C8_unrecognized_mention_witness :
    parse_command "frobnicate" = Intent.unrecognized ∧
    handle_mentions cfgOpen ⟨Option.none, some "C1", some "U9", "frobnicate", [some "B1"]⟩ =
      (200, [Effect.authCheck (PyVal.str "U9")]) :=
  ⟨rfl, (C8_unrecognized_mention cfgOpen
    ⟨Option.none, some "C1", some "U9", "frobnicate", [some "B1"]⟩ "B1" []
    rfl rfl rfl rfl rfl rfl).1 rfl |>.1⟩

/-- The unrecognized mention of user `"U2"`. -/
def evUnrec : MentionEvent :=
  ⟨Option.none, some "C1", some "U2", "frobnicate", [some "B1"]⟩

/-- C8 counterexample: with the allow-list `["U1"]`, user `"U2"`'s unrecognized
mention is not silently ignored — the bot sends the access-denied reply to the
channel. -/
theorem C8_counterexample :
    handle_mentions cfgAllowU1 evUnrec =
      (200, [Effect.authCheck (PyVal.str "U2"), Effect.sendDeny "C1" "U2"]) ∧
    (handle_mentions cfgAllowU1 evUnrec).2.any isChannelReply = true :=
  ⟨rfl, rfl⟩

/-- A value equal to one string literal is unequal to any other. -/
lemma pyEqStr_ne (v : PyVal) (a b : String) (h : pyEqStr v a = true) (hne : a ≠ b) :
    pyEqStr v b = false := by
  cases v <;> simp [pyEqStr] at h ⊢
  next s =>
    subst h
    exact hne

/-- C4 (amended): the authorization gate is invoked before acting on every
recognized non-Help mention, and before acting on every interactive callback
whose action value is `"yes"` and whose payload carries a truthy user id (a
`"yes"` callback with no user id proceeds without any check); it is never
invoked for a `help` mention or for a `"no"` callback: `help` produces the help
reply and a `"no"` click produces the `"Request cancelled."` reply for every
user id, including one outside a non-empty allow-list. -/
theorem C4_authorization_gate (cfg : Config) (ev : MentionEvent)
    (orc : Oracle) (payload cb av ru ch uid : PyVal)
    (bot : String) (tl : List (Option String))
    (hs : ev.subtype = Option.none)
    (hch : optTruthy ev.channel = true) (hu : optTruthy ev.user = true)
    (hauth : ev.authorizations = some bot :: tl) (hbot : bot.data.isEmpty = false)
    (hf : fieldExtract payload = .ok (cb, av, ru, ch, uid))
    (hcb : pyTruthy cb = true) (hav : pyTruthy av = true) (hru : pyTruthy ru = true) :
    (parse_command ev.text = Intent.help →
      handle_mentions cfg ev =
        (200, [Effect.sendHelp (ev.channel.getD "") (ev.user.getD "") bot])) ∧
    (parse_command ev.text ≠ Intent.help →
      (handle_mentions cfg ev).2.head? =
        some (Effect.authCheck (PyVal.str (ev.user.getD "")))) ∧
    (pyEqStr av "no" = true →
      handle_interactions cfg orc payload =
        .ok (200, [Effect.postResponse ru "Request cancelled."])) ∧
    (pyEqStr av "yes" = true → pyTruthy uid = true →
      (cfg.pyAuthorized uid = false →
        handle_interactions cfg orc payload =
          .ok (200, [Effect.authCheck uid,
            Effect.postResponse ru accessDeniedInteractionText])) ∧
      (∀ st effs, handle_interactions cfg orc payload = .ok (st, effs) →
        effs.head? = some (Effect.authCheck uid))) := by
  have hb : optTruthy (some bot) = true := by simp [optTruthy, hbot]
  refine ⟨?_, ?_, ?_, ?_⟩
  · intro hp
    simp [handle_mentions, hs, hch, hu, hauth, hb, hp]
  · intro hp
    cases hA : cfg.is_user_authorized (ev.user.getD "") <;>
      cases hcmd : parse_command ev.text <;>
        simp_all [handle_mentions, hs, hch, hu, hauth, hb, hA, hcmd]
  · intro hno
    simp [handle_interactions, hf, handleFields, hcb, hav, hru, hno]
  · intro hyes htr
    have hno : pyEqStr av "no" = false := pyEqStr_ne av "yes" "no" hyes (by decide)
    constructor
    · intro hA
      simp [handle_interactions, hf, handleFields, hcb, hav, hru, hyes, hno, htr, hA]
    · intro st effs heq
      cases hA : cfg.pyAuthorized uid with
      | false =>
          simp [handle_interactions, hf, handleFields, hcb, hav, hru, hyes, hno, htr,
            hA] at heq
          rw [← heq.2]
          simp
      | true =>
          cases hyb : yesBranch cfg orc payload cb ru ch with
          | error e =>
              simp [handle_interactions, hf, handleFields, hcb, hav, hru, hyes, hno,
                htr, hA, hyb] at heq
          | ok r =>
              obtain ⟨st', effs'⟩ := r
              simp [handle_interactions, hf, handleFields, hcb, hav, hru, hyes, hno,
                htr, hA, hyb] at heq
              rw [← heq.2]
              simp

/-- C4 witness: a `help` mention from a non-allow-listed user is answered, and
a `"no"` click from a non-allow-listed user is cancelled, both without any
authorization check. -/
theorem C4_authorization_gate_witness :
    handle_mentions cfgAllowU1 ⟨Option.none, some "C1", some "U2", "help", [some "B1"]⟩ =
      (200, [Effect.sendHelp "C1" "U2" "B1"]) ∧
    handle_interactions cfgAllowU1 orcDefault
        (PyVal.dict [("callback_id", PyVal.str "sync_app"),
          ("actions", PyVal.list [PyVal.dict [("value", PyVal.str "no")]]),
          ("response_url", PyVal.str "https://hooks.example/r1"),
          ("user", PyVal.dict [("id", PyVal.str "U2")])]) =
      .ok (200, [Effect.postResponse (PyVal.str "https://hooks.example/r1")
        "Request cancelled."]) :=
  ⟨(C4_authorization_gate cfgAllowU1
      ⟨Option.none, some "C1", some "U2", "help", [some "B1"]⟩ orcDefault
      (PyVal.dict [("callback_id", PyVal.str "sync_app"),
        ("actions", PyVal.list [PyVal.dict [("value", PyVal.str "no")]]),
        ("response_url", PyVal.str "https://hooks.example/r1"),
        ("user", PyVal.dict [("id", PyVal.str "U2")])])
      (PyVal.str "sync_app") (PyVal.str "no") (PyVal.str "https://hooks.example/r1")
      PyVal.none (PyVal.str "U2") "B1" []
      rfl rfl rfl rfl rfl rfl rfl rfl rfl).1 rfl,
    (C4_authorization_gate cfgAllowU1
      ⟨Option.none, some "C1", some "U2", "help", [some "B1"]⟩ orcDefault
      (PyVal.dict [("callback_id", PyVal.str "sync_app"),
        ("actions", PyVal.list [PyVal.dict [("value", PyVal.str "no")]]),
        ("response_url", PyVal.str "https://hooks.example/r1"),
        ("user", PyVal.dict [("id", PyVal.str "U2")])])
      (PyVal.str "sync_app") (PyVal.str "no") (PyVal.str "https://hooks.example/r1")
      PyVal.none (PyVal.str "U2") "B1" []
      rfl rfl rfl rfl rfl rfl rfl rfl rfl).2.2.1 rfl⟩

/-- A `"yes"` interaction payload with no user field at all. -/
def yesNoUserPayload : PyVal :=
  PyVal.dict [("callback_id", PyVal.str "list_app_confirmation"),
    ("actions", PyVal.list [PyVal.dict [("value", PyVal.str "yes")]]),
    ("response_url", PyVal.str "https://hooks.example/r1")]

/-- C4 counterexample: with the non-empty allow-list `["U1"]`, a `"yes"`
callback whose payload carries no user id is acted on (the controller is
called) with the authorization gate never invoked, so authorization is not
invoked before acting on every `"yes"` callback. -/
theorem C4_counterexample :
    handle_interactions cfgAllowU1 orcOneApp yesNoUserPayload =
      .ok (200, [Effect.argoListApps,
        Effect.replyListTable (PyVal.str "https://hooks.example/r1")]) ∧
    (match handle_interactions cfgAllowU1 orcOneApp yesNoUserPayload with
      | .ok r => r.2.any isAuthCheck
      | .error _ => true) = false ∧
    (match handle_interactions cfgAllowU1 orcOneApp yesNoUserPayload with
      | .ok r => r.2.any isControllerCall
      | .error _ => false) = true :=
  ⟨rfl, rfl, rfl⟩

end ArgoBot
